import Mathlib

/-!
Verification development for the light-etl file-watcher pipeline.

The definitions below are shallow embeddings of the Python sources:
* `get_table_name_from_path` embeds
  `PatternBasedWatcher.get_table_name_from_path`
  (src/pattern_based_cleaner_watcher.py, identical code in
  `ConfigurablePatternWatcher.get_table_name_from_path`,
  src/pattern_watcher_configurable.py); paths and patterns are `List Char`
  so that the character-level normalization of the source
  (`filepath.replace('\\', '/').lower()`) is modelled exactly.
* the scanner step of `PatternBasedWatcher.find_and_process_files` and the
  scanner step of `WorkingFileWatcher.find_new_files` / `run_once`
  (src/working_file_watcher.py) are embedded as explicit state-passing
  functions over the watcher state (`file_timestamps`, `processed_files`).
* `FileProcessor` of src/file_watcher_service.py (delayed-dispatch queue,
  completion endpoint, lock discipline) is embedded further below.
-/

/-- File paths are modelled as their character lists; Python string
operations used by the watcher (`replace`, `lower`, substring `in`)
become `List Char` operations. -/
abbrev FPath := List Char

/-- `filepath.replace('\\', '/')` from the source, character by character. -/
def backslashToSlash (p : FPath) : FPath :=
  p.map (fun c => if c = '\\' then '/' else c)

/-- `.lower()` from the source. -/
def lowerPath (p : FPath) : FPath :=
  p.map Char.toLower

/-- `normalized_path = filepath.replace('\\', '/').lower()` from
`get_table_name_from_path` (src/pattern_based_cleaner_watcher.py line 147). -/
def normalizedPath (p : FPath) : FPath :=
  lowerPath (backslashToSlash p)

/-- The Windows-style spelling of a POSIX-style path: every forward slash
replaced by a backslash. -/
def toWindowsSpelling (p : FPath) : FPath :=
  p.map (fun c => if c = '/' then '\\' else c)

/-- `PATTERN_TABLE_MAPPING` from src/pattern_based_cleaner_watcher.py
(lines 34-44), in declaration order (Python dicts preserve insertion
order). -/
def PATTERN_TABLE_MAPPING : List (FPath × FPath) :=
  [("tel_list".toList, "dim_numbers".toList),
   ("customer_data".toList, "dim_customers".toList),
   ("product_info".toList, "dim_products".toList),
   ("sales_data".toList, "fact_sales".toList),
   ("inventory".toList, "dim_inventory".toList),
   ("transactions".toList, "fact_transactions".toList),
   ("reports".toList, "staging_reports".toList)]

/-- `needle` matches at the very start of `haystack`. -/
def matchHere : FPath → FPath → Bool
  | [], _ => true
  | _ :: _, [] => false
  | a :: as, b :: bs => a = b && matchHere as bs

/-- Python's substring test `needle in haystack`: `needle` occurs as a
contiguous run somewhere in `haystack`. -/
def occursIn (needle : FPath) : FPath → Bool
  | [] => needle.isEmpty
  | b :: bs => matchHere needle (b :: bs) || occursIn needle bs

/-- The loop condition `pattern.lower() in normalized_path` of
`get_table_name_from_path`: the lowered pattern occurs as a contiguous
substring of the normalized path. -/
def patternHits (filepath pat : FPath) : Bool :=
  occursIn (lowerPath pat) (normalizedPath filepath)

/-- `get_table_name_from_path(filepath)` from
src/pattern_based_cleaner_watcher.py lines 136-157: scan the mapping in
declaration order, return the table of the first pattern whose lowered
text occurs in the normalized path, `None` if no pattern matches. -/
def get_table_name_from_path (rules : List (FPath × FPath)) (filepath : FPath) :
    Option FPath :=
  (rules.find? (fun r => patternHits filepath r.1)).map (·.2)

/-! ### Scanner state of the pattern-based watcher

`PatternBasedWatcher` keeps `self.file_timestamps` (a dict path → mtime)
and `self.processed_files` (a set of paths).  `find_and_process_files`
(src/pattern_based_cleaner_watcher.py lines 239-314) stats each found
file, skips it when its recorded mtime is unchanged, routes it through
`get_table_name_from_path`, records the new mtime, re-stats after the
2-second settle sleep, and calls `process_file` when the file is stable
and non-empty. -/

/-- `self.file_timestamps.get(p)`: first-match association-list lookup. -/
def lookupTS : List (FPath × Nat) → FPath → Option Nat
  | [], _ => none
  | (q, v) :: rest, p => if q = p then some v else lookupTS rest p

/-- `self.file_timestamps[p] = v`: replace the binding for `p` or append it. -/
def insertTS : List (FPath × Nat) → FPath → Nat → List (FPath × Nat)
  | [], p, v => [(p, v)]
  | (q, w) :: rest, p, v =>
    if q = p then (q, v) :: rest else (q, w) :: insertTS rest p v

/-- `self.processed_files.add(p)`: set insertion. -/
def insertProcessed (l : List FPath) (p : FPath) : List FPath :=
  if p ∈ l then l else p :: l

/-- The mutable state of `PatternBasedWatcher` (and of
`WorkingFileWatcher`, which has the same two fields). -/
structure WatcherState where
  fileTimestamps : List (FPath × Nat)
  processedFiles : List FPath
deriving DecidableEq

/-- What `os.stat` returns for one file during one scan: the first stat's
mtime, and the mtime and size of the re-stat done after the settle sleep. -/
structure Obs where
  mtime1 : Nat
  mtime2 : Nat
  size2 : Nat
deriving DecidableEq

/-- One file observation handed to the scanner in one tick: the path, the
stat results, and whether `process_file` would succeed for it (Celery
client configured, the file read yields a non-empty dataframe, and
`send_task` does not raise — `process_file`,
src/pattern_based_cleaner_watcher.py lines 195-237, returns `True`
exactly in that case and `False` otherwise, catching all exceptions). -/
structure ScanEntry where
  path : FPath
  obs : Obs
  ok : Bool
deriving DecidableEq

/-- A successful `send_task` call: the `process_dataframe` task sent for
this path, carrying the table name; we also record the mtime the scanner
observed, identifying the `(path, mtime)` pair being dispatched. -/
structure DispatchRec where
  path : FPath
  mtime : Nat
  table : FPath
deriving DecidableEq

/-- The per-file body of `find_and_process_files`
(src/pattern_based_cleaner_watcher.py lines 257-305): skip when the
recorded mtime equals the fresh stat; route; for an unmatched new file
record its mtime; for a matched file record the mtime, then drop it if
the re-stat shows a different mtime (still being written) or size 0;
otherwise run `process_file`, which adds the path to `processed_files`
and returns `True` exactly when the task was sent. -/
def stepPB (s : WatcherState) (e : ScanEntry) : WatcherState × Option DispatchRec :=
  if lookupTS s.fileTimestamps e.path = some e.obs.mtime1 then (s, none)
  else
    match get_table_name_from_path PATTERN_TABLE_MAPPING e.path with
    | none =>
      if lookupTS s.fileTimestamps e.path = none then
        ({ s with fileTimestamps := insertTS s.fileTimestamps e.path e.obs.mtime1 },
         none)
      else (s, none)
    | some table =>
      if e.obs.mtime2 ≠ e.obs.mtime1 then
        ({ s with fileTimestamps := insertTS s.fileTimestamps e.path e.obs.mtime1 },
         none)
      else if e.obs.size2 = 0 then
        ({ s with fileTimestamps := insertTS s.fileTimestamps e.path e.obs.mtime1 },
         none)
      else if e.ok then
        ({ fileTimestamps := insertTS s.fileTimestamps e.path e.obs.mtime1,
           processedFiles := insertProcessed s.processedFiles e.path },
         some ⟨e.path, e.obs.mtime1, table⟩)
      else
        ({ s with fileTimestamps := insertTS s.fileTimestamps e.path e.obs.mtime1 },
         none)

/-- One poll tick of `find_and_process_files`: the files found by the
glob are handled in order, threading the watcher state and collecting
the dispatched tasks. -/
def runTickPB : WatcherState → List ScanEntry → WatcherState × List DispatchRec
  | s, [] => (s, [])
  | s, e :: es =>
    let r := stepPB s e
    let rest := runTickPB r.1 es
    (rest.1, r.2.toList ++ rest.2)

/-- A run of consecutive poll ticks of the pattern-based watcher. -/
def runPB : WatcherState → List (List ScanEntry) → WatcherState × List DispatchRec
  | s, [] => (s, [])
  | s, t :: ts =>
    let r := runTickPB s t
    let rest := runPB r.1 ts
    (rest.1, r.2 ++ rest.2)

/-- Number of dispatches recorded for a given `(path, mtime)` pair. -/
def dispatchCount (p : FPath) (m : Nat) (rs : List DispatchRec) : Nat :=
  (rs.filter (fun r => r.path = p ∧ r.mtime = m)).length

/-- An observation of path `p` is *stable at mtime `m`*: both stats
report `m`, the size is positive, and processing succeeds. -/
def StableAt (m : Nat) (e : ScanEntry) : Prop :=
  e.obs.mtime1 = m ∧ e.obs.mtime2 = m ∧ e.obs.size2 ≠ 0 ∧ e.ok = true

instance (m : Nat) (e : ScanEntry) : Decidable (StableAt m e) := by
  unfold StableAt; infer_instance

/-! ### The working file watcher

`WorkingFileWatcher.find_new_files` (src/working_file_watcher.py lines
193-232) collects candidate files: a path not yet in `file_timestamps` is
recorded and becomes a candidate only if a re-stat after the settle sleep
shows the same mtime and a positive size; a known path with a changed
mtime is recorded and becomes a candidate only if it is **not** in
`processed_files` (line 225) — this branch performs no re-stat and no
size check.  `run_once` (lines 234-262) then calls `process_file` on each
candidate. -/

/-- One file observation for the working watcher: stat results plus what
`process_file` would find at processing time — the number of dataframe
rows the file read yields (`df is None` when zero rows) and whether the
Celery client is configured, the read raises no error, and `send_task`
succeeds. -/
structure WEntry where
  path : FPath
  obs : Obs
  rows : Nat
  sendOk : Bool
deriving DecidableEq

/-- The per-file body of `find_new_files`. -/
def findStepWF (s : WatcherState) (e : WEntry) : WatcherState × Option WEntry :=
  match lookupTS s.fileTimestamps e.path with
  | none =>
    if e.obs.mtime2 = e.obs.mtime1 ∧ 0 < e.obs.size2 then
      ({ s with fileTimestamps := insertTS s.fileTimestamps e.path e.obs.mtime1 },
       some e)
    else
      ({ s with fileTimestamps := insertTS s.fileTimestamps e.path e.obs.mtime1 },
       none)
  | some t =>
    if t ≠ e.obs.mtime1 then
      if e.path ∈ s.processedFiles then
        ({ s with fileTimestamps := insertTS s.fileTimestamps e.path e.obs.mtime1 },
         none)
      else
        ({ s with fileTimestamps := insertTS s.fileTimestamps e.path e.obs.mtime1 },
         some e)
    else (s, none)

/-- The candidate-collection loop of `find_new_files`. -/
def findWF : WatcherState → List WEntry → WatcherState × List WEntry
  | s, [] => (s, [])
  | s, e :: es =>
    let r := findStepWF s e
    let rest := findWF r.1 es
    (rest.1, r.2.toList ++ rest.2)

/-- `WorkingFileWatcher.process_file` (src/working_file_watcher.py lines
141-191): an empty dataframe (`df is None`, zero rows) returns `False`
without sending; otherwise, when the client is configured and the read
and `send_task` succeed, the task is sent and the path added to
`processed_files`.  The emitted record is the dispatched `(path, mtime)`
pair, the mtime being the one the scanner observed for this candidate. -/
def processFileWF (s : WatcherState) (e : WEntry) : WatcherState × Option (FPath × Nat) :=
  if e.rows = 0 then (s, none)
  else if e.sendOk then
    ({ s with processedFiles := insertProcessed s.processedFiles e.path },
     some (e.path, e.obs.mtime1))
  else (s, none)

/-- The processing loop of `run_once` over the collected candidates. -/
def processAllWF : WatcherState → List WEntry → WatcherState × List (FPath × Nat)
  | s, [] => (s, [])
  | s, e :: es =>
    let r := processFileWF s e
    let rest := processAllWF r.1 es
    (rest.1, r.2.toList ++ rest.2)

/-- One full `run_once` cycle: find candidates, then process them. -/
def runOnceWF (s : WatcherState) (es : List WEntry) : WatcherState × List (FPath × Nat) :=
  let f := findWF s es
  processAllWF f.1 f.2

/-- A run of consecutive poll cycles of the working watcher. -/
def runWF : WatcherState → List (List WEntry) → WatcherState × List (FPath × Nat)
  | s, [] => (s, [])
  | s, t :: ts =>
    let r := runOnceWF s t
    let rest := runWF r.1 ts
    (rest.1, r.2 ++ rest.2)

/-- Number of working-watcher dispatches for a `(path, mtime)` pair. -/
def dispatchCountWF (p : FPath) (m : Nat) (rs : List (FPath × Nat)) : Nat :=
  (rs.filter (fun r => r.1 = p ∧ r.2 = m)).length

/-! ### Python values and the raw Celery wire envelope

`FileProcessor.trigger_etl_task_fixed` (src/file_watcher_service.py lines
146-218) builds the Celery message by hand and then runs
`r.lpush('celery', json.dumps(celery_message))` (line 210).
JSON-serializable Python values are modelled by `PyVal`; serialization
(`json.dumps` / the consumer's `json.loads`) is modelled at the document
level: a successful dump is the JSON document itself, and the reference
deserializer reads the same document back.  One value in the outer dict
is **not** JSON-serializable: `celery_message['body']` is a `bytes`
object (`json.dumps([...]).encode('utf-8')`, line 187), which Python's
json encoder rejects with `TypeError`; `OuterVal` below keeps this
distinction, so the failing outer dump is part of the model. -/

inductive PyVal where
  | pyStr : String → PyVal
  | pyInt : Int → PyVal
  | pyBool : Bool → PyVal
  | pyNone : PyVal
  | pyList : List PyVal → PyVal
  | pyDict : List (String × PyVal) → PyVal

/-- Python `d.get(k)`: first binding of `k`, if any. -/
def dictGet (kvs : List (String × PyVal)) (k : String) : Option PyVal :=
  (kvs.find? (fun e => e.1 = k)).map (·.2)

/-- The task name hard-coded in `trigger_etl_task_fixed` (line 167). -/
def fixedTaskName : String := "etl_processor.enhanced_tasks.process_excel_file"

/-- `repr(task_data['args'])` for `args = [filename]`. -/
def argsRepr (filename : String) : String := "['" ++ filename ++ "']"

/-- `repr(task_data['kwargs'])` for
`kwargs = {'auto_triggered': True, 'filepath': filepath}`. -/
def kwargsRepr (filepath : String) : String :=
  "\x7b'auto_triggered': True, 'filepath': '" ++ filepath ++ "'\x7d"

/-- The **content** of the `celery_message` dict (lines 186-206): a
`body` segment (the JSON document `[args, kwargs, {}]`, which the source
stores as its utf-8 encoded bytes), a `headers` dict, and top-level
`content-type` / `content-encoding` fields.  This structure records the
fields by their decoded documents; the dict actually handed to the outer
`json.dumps`, with the body's `bytes` nature explicit, is
`celery_message_outer` below. -/
structure CeleryMessage where
  body : PyVal
  headers : List (String × PyVal)
  contentType : String
  contentEncoding : String

/-- The field contents `trigger_etl_task_fixed` assembles: given the file
name, the full path, and the integer timestamp `int(time.time())`, these
are exactly the fields of the `celery_message` dict the source builds
(lines 164-206); `args = [filename]`, `kwargs = {'auto_triggered': True,
'filepath': filepath}`, `id = f"{filename}_{int(time.time())}"`. -/
def trigger_etl_task_fixed_message (filename filepath : String) (t : Nat) :
    CeleryMessage :=
  { body := .pyList
      [.pyList [.pyStr filename],
       .pyDict [("auto_triggered", .pyBool true), ("filepath", .pyStr filepath)],
       .pyDict []],
    headers :=
      [("lang", .pyStr "py"),
       ("task", .pyStr fixedTaskName),
       ("id", .pyStr (filename ++ "_" ++ toString t)),
       ("shadow", .pyNone),
       ("eta", .pyNone),
       ("expires", .pyNone),
       ("group", .pyNone),
       ("group_index", .pyNone),
       ("retries", .pyInt 0),
       ("timelimit", .pyList [.pyNone, .pyNone]),
       ("root_id", .pyStr (filename ++ "_" ++ toString t)),
       ("parent_id", .pyNone),
       ("argsrepr", .pyStr (argsRepr filename)),
       ("kwargsrepr", .pyStr (kwargsRepr filepath))],
    contentType := "application/json",
    contentEncoding := "utf-8" }

/-- The reference deserializer of the Celery v2 message protocol: read
the task name from `headers.task` and split the decoded body into
`[args, kwargs, extras]`. -/
def decodeEnvelope (msg : CeleryMessage) : Option (String × PyVal × PyVal) :=
  match dictGet msg.headers "task", msg.body with
  | some (.pyStr task), .pyList [args, kwargs, _] => some (task, args, kwargs)
  | _, _ => none

/-- A value stored in the outer `celery_message` dict: either a
JSON-serializable Python value, or a `bytes` object — recorded by the
JSON document whose utf-8 encoding it is (`json.dumps(...).encode`,
line 187). -/
inductive OuterVal where
  | oJson : PyVal → OuterVal
  | oBytes : PyVal → OuterVal

/-- The outer `celery_message` dict exactly as it is passed to
`json.dumps` at line 210: the same four fields as
`trigger_etl_task_fixed_message`, with `body` a `bytes` value. -/
def celery_message_outer (filename filepath : String) (t : Nat) :
    List (String × OuterVal) :=
  [("body", .oBytes (trigger_etl_task_fixed_message filename filepath t).body),
   ("headers",
    .oJson (.pyDict (trigger_etl_task_fixed_message filename filepath t).headers)),
   ("content-type",
    .oJson (.pyStr (trigger_etl_task_fixed_message filename filepath t).contentType)),
   ("content-encoding",
    .oJson (.pyStr
      (trigger_etl_task_fixed_message filename filepath t).contentEncoding))]

/-- `json.dumps` applied to the outer dict, at the document level: the
encoder walks the entries in order and raises `TypeError` at the first
`bytes` value (Python's json encoder cannot serialize `bytes`); when
every value is serializable, the dump is the document itself. -/
def dumpsOuter :
    List (String × OuterVal) → Except String (List (String × PyVal))
  | [] => .ok []
  | kv :: rest =>
    match kv.2 with
    | .oBytes _ => .error "TypeError: Object of type bytes is not JSON serializable"
    | .oJson v =>
      match dumpsOuter rest with
      | .ok kvs => .ok ((kv.1, v) :: kvs)
      | .error e => .error e

/-- The push step of `trigger_etl_task_fixed` (line 210):
`json.dumps(celery_message)` — an `error` result models the `TypeError`
that the `except` at line 216 swallows after logging, in which case
nothing is pushed onto the `celery` list. -/
def trigger_etl_task_fixed_push (filename filepath : String) (t : Nat) :
    Except String (List (String × PyVal)) :=
  dumpsOuter (celery_message_outer filename filepath t)

/-! ### FileProcessor state and the completion endpoint

`FileProcessor` (src/file_watcher_service.py lines 81-113) keeps
`processing_queue` (path → scheduled fire time), `processed_files` (a
set), `file_timestamps` (path → mtime), plus the `processing_events.log`
append-only log written by `log_processing_event` (lines 308-323). -/

/-- Rendering a Python value inside an f-string (`f"completed_{status}"`,
`f"Worker: {worker_id}, Details: {details}"`).  Only scalars appear in
the completion payload fields; containers are abbreviated. -/
def pyFormat : PyVal → String
  | .pyStr s => s
  | .pyNone => "None"
  | .pyBool b => if b then "True" else "False"
  | .pyInt n => toString n
  | .pyList _ => "[...]"
  | .pyDict _ => "{...}"

/-- One line of `processing_events.log`: the `filepath`, `status` and
`details` fields of the event dict written by `log_processing_event`. -/
structure LogEvent where
  filepath : PyVal
  status : String
  details : String

/-- `self.processed_files.add(p)` for string paths. -/
def insertProcessedStr (l : List String) (p : String) : List String :=
  if p ∈ l then l else p :: l

/-- The in-memory state of `FileProcessor` together with its events log. -/
structure FPState where
  processingQueue : List (String × Nat)
  processedFiles : List String
  fileTimestamps : List (String × Nat)
  events : List LogEvent

/-- The `/processing_complete` endpoint (src/file_watcher_service.py
lines 534-561): read `filename`, `status`, `details`, `worker_id` from
the JSON body (each `None` when absent), log a `completed_{status}`
event via `log_processing_event`, and answer with the acknowledgement
`{"message": "Processing completion recorded", filename, status}`. -/
def processing_complete (s : FPState) (data : List (String × PyVal)) :
    FPState × (String × PyVal × PyVal) :=
  let filename := (dictGet data "filename").getD .pyNone
  let status := (dictGet data "status").getD .pyNone
  let workerId := (dictGet data "worker_id").getD .pyNone
  let details := (dictGet data "details").getD .pyNone
  ({ s with events := s.events ++
      [⟨filename, "completed_" ++ pyFormat status,
        "Worker: " ++ pyFormat workerId ++ ", Details: " ++ pyFormat details⟩] },
   ("Processing completion recorded", filename, status))

/-! ### The delayed-dispatch sweep

`FileProcessor.process_pending_files` (src/file_watcher_service.py lines
97-113): under the lock, every queue entry whose fire time has been
reached is collected into `files_to_process` and deleted from
`processing_queue`; then, outside the lock, each collected path gets one
dispatch attempt, and is added to `processed_files` only if the attempt
does not raise. -/

/-- `process_pending_files` as a function of the current time and of
which dispatch attempts succeed (`ok p = false` models the trigger call
raising).  Returns the new state and `files_to_process`, the list of
attempted paths in sweep order. -/
def process_pending_files (now : Nat) (s : FPState) (ok : String → Bool) :
    FPState × List String :=
  let due := (s.processingQueue.filter (fun kv => kv.2 ≤ now)).map (·.1)
  let rest := s.processingQueue.filter (fun kv => ¬ kv.2 ≤ now)
  ({ s with
      processingQueue := rest,
      processedFiles :=
        due.foldl (fun acc p => if ok p then insertProcessedStr acc p else acc)
          s.processedFiles },
   due)

/-! ### Lock discipline of the shared file-state structures

The shared structures of `FileProcessor` and the sequence of atomic
actions each code path performs on them, with the `with self.lock:`
blocks made explicit.  Transcribed from src/file_watcher_service.py:
`schedule_file_processing` (lines 90-95) mutates the queue inside the
lock; `process_pending_files` (lines 97-113) sweeps the queue inside the
lock but runs `self.processed_files.add(filepath)` (line 111) after the
`with` block has exited; `PollingFileWatcher._check_file` (lines
387-416) writes `self.processor.file_timestamps[filepath]` (lines 397
and 408) with no lock held, then calls `schedule_file_processing`. -/

inductive SharedMap where
  | processingQueue
  | processedFiles
  | fileTimestamps
deriving DecidableEq

inductive LockOp where
  | acquire
  | release
  | write (t : SharedMap)
deriving DecidableEq

/-- `schedule_file_processing`: `with self.lock: self.processing_queue[...] = ...`. -/
def schedule_file_processing_ops : List LockOp :=
  [.acquire, .write .processingQueue, .release]

/-- `process_pending_files`: the locked sweep deleting due queue entries,
then — outside the lock — `self.processed_files.add(filepath)`. -/
def process_pending_files_ops : List LockOp :=
  [.acquire, .write .processingQueue, .release, .write .processedFiles]

/-- `_check_file`, new-file branch: the unlocked
`self.processor.file_timestamps[filepath] = current_mtime` (line 397)
followed by `schedule_file_processing`. -/
def check_file_new_ops : List LockOp :=
  .write .fileTimestamps :: schedule_file_processing_ops

/-- `_check_file`, modified-file branch: the unlocked timestamps write
(line 408) followed by `schedule_file_processing`. -/
def check_file_modified_ops : List LockOp :=
  .write .fileTimestamps :: schedule_file_processing_ops

/-- The shared structures written while the lock depth is zero. -/
def unlockedWrites : Nat → List LockOp → List SharedMap
  | _, [] => []
  | d, .acquire :: rest => unlockedWrites (d + 1) rest
  | d, .release :: rest => unlockedWrites (d - 1) rest
  | d, .write t :: rest => (if d = 0 then [t] else []) ++ unlockedWrites d rest

/-! ### Configuration validation and startup

`PatternConfig.validate_config` (src/pattern_config_system.py lines
193-224) collects error strings and returns `False` when any exist.
`ConfigurablePatternWatcher.__init__` (src/pattern_watcher_configurable.py
lines 37-61) never calls it: startup runs `_setup_from_config`, whose
only failing operation is `get_pattern_mappings`
(src/pattern_config_system.py lines 131-134) — the dict comprehension
`config['table']` raises `TypeError` on a non-dict pattern value and
`KeyError` on a missing `table` key; `main` catches the exception and
calls `sys.exit(1)`.  Everything else (`watcher_settings.get(...)`,
including a non-integer `poll_interval`) uses defaulted `get` and cannot
fail.  The two relevant config sections are modelled; a present section
is a dict, a missing one is `none`. -/

structure RawConfig where
  watcherSettings : Option (List (String × PyVal))
  patternMappings : Option (List (String × PyVal))

/-- Python's `isinstance(x, int)` — `True` for `bool` as well, since
`bool` is a subclass of `int`. -/
def pyIsInstanceInt : PyVal → Bool
  | .pyInt _ => true
  | .pyBool _ => true
  | _ => false

/-- A pattern-mapping entry that `validate_config` flags and that makes
the startup extraction raise: a non-dict value, or a dict without a
`table` key. -/
def badMappingB (pc : String × PyVal) : Bool :=
  match pc.2 with
  | .pyDict kvs => (dictGet kvs "table").isNone
  | _ => true

/-- The error message `validate_config` emits for a bad mapping entry. -/
def patternErrorMsg (pc : String × PyVal) : String :=
  match pc.2 with
  | .pyDict _ => "Pattern " ++ pc.1 ++ " missing required table field"
  | _ => "Pattern " ++ pc.1 ++ " config must be a dictionary"

/-- The per-pattern validation loop of `validate_config` (lines 204-211):
one error string per bad mapping entry, in order. -/
def patternErrors : List (String × PyVal) → List String
  | [] => []
  | pc :: rest =>
    (if badMappingB pc then [patternErrorMsg pc] else []) ++ patternErrors rest

/-- The full error list `validate_config` collects: missing required
sections, bad pattern mappings, then a non-integer `poll_interval`
(present but failing `isinstance(.., int)`). -/
def config_validation_errors (c : RawConfig) : List String :=
  (if c.watcherSettings.isNone then ["Missing required section watcher_settings"]
   else []) ++
  (if c.patternMappings.isNone then ["Missing required section pattern_mappings"]
   else []) ++
  patternErrors (c.patternMappings.getD []) ++
  (match dictGet (c.watcherSettings.getD []) "poll_interval" with
   | some v => if pyIsInstanceInt v then [] else ["poll_interval must be an integer"]
   | none => [])

/-- `validate_config`: `True` iff no errors were collected. -/
def validate_config (c : RawConfig) : Bool :=
  (config_validation_errors c).isEmpty

/-- The dict comprehension of `get_pattern_mappings`
(`{pattern: config['table'] for pattern, config in patterns.items()}`):
the first non-dict value raises `TypeError`, the first dict without
`table` raises `KeyError`. -/
def get_pattern_mappings_list :
    List (String × PyVal) → Except String (List (String × PyVal))
  | [] => .ok []
  | pc :: rest =>
    match pc.2 with
    | .pyDict kvs =>
      match dictGet kvs "table" with
      | some t =>
        match get_pattern_mappings_list rest with
        | .ok ms => .ok ((pc.1, t) :: ms)
        | .error e => .error e
      | none => .error "KeyError: table"
    | _ => .error "TypeError: pattern config is not a dictionary"

/-- `PatternConfig.get_pattern_mappings` over the loaded config. -/
def get_pattern_mappings (c : RawConfig) :
    Except String (List (String × PyVal)) :=
  get_pattern_mappings_list (c.patternMappings.getD [])

/-- The failure-relevant part of `_setup_from_config`
(src/pattern_watcher_configurable.py lines 63-86): extract the pattern
mappings (may raise) and read `poll_interval` with default 10 (never
raises, whatever the value's type).  An `error` result models the
exception that `main` turns into `sys.exit(1)`. -/
def setup_from_config (c : RawConfig) :
    Except String (List (String × PyVal) × PyVal) :=
  match get_pattern_mappings c with
  | .ok ms =>
    .ok (ms, (dictGet (c.watcherSettings.getD []) "poll_interval").getD (.pyInt 10))
  | .error e => .error e

def exceptIsOk {α : Type} : Except String α → Bool
  | .ok _ => true
  | .error _ => false

/-- The malformation classes named by the claim: a missing required
section, a bad pattern mapping, or a present non-integer
`poll_interval`. -/
def configMalformedB (c : RawConfig) : Bool :=
  c.watcherSettings.isNone || c.patternMappings.isNone ||
  (c.patternMappings.getD []).any badMappingB ||
  (match dictGet (c.watcherSettings.getD []) "poll_interval" with
   | some v => !pyIsInstanceInt v
   | none => false)

theorem matchHere_iff (n h : FPath) :
    matchHere n h = true ↔ ∃ post, h = n ++ post := by
  induction n generalizing h with
  | nil => simp [matchHere]
  | cons a as ih =>
    cases h with
    | nil => simp [matchHere]
    | cons b bs =>
      simp only [matchHere, Bool.and_eq_true, decide_eq_true_eq, ih,
        List.cons_append, List.cons.injEq]
      constructor
      · rintro ⟨rfl, post, rfl⟩; exact ⟨post, rfl, rfl⟩
      · rintro ⟨post, rfl, rfl⟩; exact ⟨rfl, post, rfl⟩

theorem occursIn_iff (n h : FPath) :
    occursIn n h = true ↔ ∃ pre post, h = pre ++ n ++ post := by
  induction h with
  | nil =>
    simp only [occursIn, List.isEmpty_iff]
    constructor
    · rintro rfl; exact ⟨[], [], rfl⟩
    · rintro ⟨pre, post, hp⟩
      rcases List.append_eq_nil.mp (List.append_eq_nil.mp hp.symm).1 with ⟨-, h2⟩
      exact h2
  | cons b bs ih =>
    simp only [occursIn, Bool.or_eq_true, matchHere_iff, ih]
    constructor
    · rintro (⟨post, hp⟩ | ⟨pre, post, hp⟩)
      · exact ⟨[], post, by simpa using hp⟩
      · exact ⟨b :: pre, post, by simp [hp]⟩
    · rintro ⟨pre, post, hp⟩
      cases pre with
      | nil => exact Or.inl ⟨post, by simpa using hp⟩
      | cons c cs =>
        right
        have hp2 : b :: bs = c :: (cs ++ n ++ post) := by simpa using hp
        injection hp2 with hb hbs
        exact ⟨cs, post, hbs⟩

theorem normalizedPath_toWindowsSpelling (p : FPath) (h : '\\' ∉ p) :
    normalizedPath (toWindowsSpelling p) = normalizedPath p := by
  unfold normalizedPath backslashToSlash toWindowsSpelling lowerPath
  rw [List.map_map, List.map_map, List.map_map]
  refine List.map_congr_left (fun c hc => ?_)
  have hcb : c ≠ '\\' := fun hcb => h (hcb ▸ hc)
  by_cases hcs : c = '/' <;> simp [Function.comp, hcs, hcb]

/-- C3: `get_table_name_from_path` (the pattern router) is a pure
deterministic function of its input (it is a Lean `def` with no state):
(a) a returned table is the destination of the first rule in declaration
order whose lowered pattern occurs in the normalized path, and no earlier
rule matches; (b) it returns `none` exactly when no rule matches;
(c) a rule matches exactly when the lowered pattern is a contiguous
substring of the normalized (forward-slash, lower-cased) path;
(d) the Windows-style spelling of a POSIX-style path routes identically. -/
theorem get_table_name_from_path_spec (rules : List (FPath × FPath)) (p : FPath) :
    (∀ t, get_table_name_from_path rules p = some t →
        ∃ l₁ pat l₂, rules = l₁ ++ (pat, t) :: l₂ ∧
          patternHits p pat = true ∧
          ∀ r ∈ l₁, patternHits p r.1 = false)
    ∧ (get_table_name_from_path rules p = none ↔
        ∀ r ∈ rules, patternHits p r.1 = false)
    ∧ (∀ pat, patternHits p pat = true ↔
        ∃ pre post, normalizedPath p = pre ++ lowerPath pat ++ post)
    ∧ ('\\' ∉ p →
        get_table_name_from_path rules (toWindowsSpelling p) =
          get_table_name_from_path rules p) := by
  refine ⟨?_, ?_, ?_, ?_⟩
  · induction rules with
    | nil => intro t ht; simp [get_table_name_from_path] at ht
    | cons r rs ih =>
      intro t ht
      by_cases hr : patternHits p r.1 = true
      · have hfind : List.find? (fun x => patternHits p x.1) (r :: rs) = some r :=
          List.find?_cons_of_pos _ hr
        rw [get_table_name_from_path, hfind] at ht
        obtain rfl : r.2 = t := by simpa using ht
        exact ⟨[], r.1, rs, by simp, hr, by simp⟩
      · have hfind : List.find? (fun x => patternHits p x.1) (r :: rs) =
            List.find? (fun x => patternHits p x.1) rs :=
          List.find?_cons_of_neg _ hr
        rw [get_table_name_from_path, hfind] at ht
        obtain ⟨l₁, pat, l₂, hrs, hpat, hnone⟩ :=
          ih t (by simpa [get_table_name_from_path] using ht)
        refine ⟨r :: l₁, pat, l₂, by simp [hrs], hpat, ?_⟩
        intro x hx
        rcases List.mem_cons.mp hx with rfl | hx
        · exact Bool.not_eq_true _ ▸ hr
        · exact hnone x hx
  · simp only [get_table_name_from_path, Option.map_eq_none', List.find?_eq_none,
      Bool.not_eq_true]
  · intro pat; exact occursIn_iff (lowerPath pat) (normalizedPath p)
  · intro hbs
    simp only [get_table_name_from_path, patternHits,
      normalizedPath_toWindowsSpelling p hbs]

/-- Witness for C3 at a concrete path: the Windows spelling of
`z:/sales_data/q1.csv` routes to the same table as the POSIX spelling. -/
theorem get_table_name_from_path_spec_witness :
    get_table_name_from_path PATTERN_TABLE_MAPPING
        (toWindowsSpelling "z:/sales_data/q1.csv".toList) =
      get_table_name_from_path PATTERN_TABLE_MAPPING "z:/sales_data/q1.csv".toList :=
  (get_table_name_from_path_spec PATTERN_TABLE_MAPPING
    "z:/sales_data/q1.csv".toList).2.2.2 (by decide)

theorem lookupTS_insertTS_self (l : List (FPath × Nat)) (p : FPath) (v : Nat) :
    lookupTS (insertTS l p v) p = some v := by
  induction l with
  | nil => simp [insertTS, lookupTS]
  | cons kv rest ih =>
    obtain ⟨q, w⟩ := kv
    by_cases h : q = p <;> simp [insertTS, lookupTS, h, ih]

theorem lookupTS_insertTS_ne (l : List (FPath × Nat)) (q p : FPath) (v : Nat)
    (h : q ≠ p) : lookupTS (insertTS l q v) p = lookupTS l p := by
  induction l with
  | nil => simp [insertTS, lookupTS, h]
  | cons kv rest ih =>
    obtain ⟨a, w⟩ := kv
    by_cases haq : a = q
    · subst haq; simp [insertTS, lookupTS, h]
    · by_cases hap : a = p
      · subst hap; simp [insertTS, lookupTS, haq]
      · simp [insertTS, lookupTS, haq, hap, ih]

/-- A scanner step for a different path never changes `p`'s recorded
timestamp. -/
theorem stepPB_lookup_other (s : WatcherState) (e : ScanEntry) (p : FPath)
    (h : e.path ≠ p) :
    lookupTS (stepPB s e).1.fileTimestamps p = lookupTS s.fileTimestamps p := by
  unfold stepPB
  split
  · rfl
  · split
    · split
      · simp [lookupTS_insertTS_ne _ _ _ _ h]
      · rfl
    · split
      · simp [lookupTS_insertTS_ne _ _ _ _ h]
      · split
        · simp [lookupTS_insertTS_ne _ _ _ _ h]
        · split
          · simp [lookupTS_insertTS_ne _ _ _ _ h]
          · simp [lookupTS_insertTS_ne _ _ _ _ h]

/-- A dispatch emitted by a scanner step is for the scanned path and its
first-stat mtime. -/
theorem stepPB_rec_src (s : WatcherState) (e : ScanEntry) (r : DispatchRec)
    (h : (stepPB s e).2 = some r) : r.path = e.path ∧ r.mtime = e.obs.mtime1 := by
  unfold stepPB at h
  split at h
  · simp at h
  · split at h
    · split at h <;> simp at h
    · split at h
      · simp at h
      · split at h
        · simp at h
        · split at h
          · obtain rfl : (⟨e.path, e.obs.mtime1, _⟩ : DispatchRec) = r := by
              simpa using h
            exact ⟨rfl, rfl⟩
          · simp at h

/-- The skip branch: if the recorded mtime equals the fresh stat, the file
is skipped and nothing changes (src/pattern_based_cleaner_watcher.py
line 262). -/
theorem stepPB_skip (s : WatcherState) (e : ScanEntry)
    (h : lookupTS s.fileTimestamps e.path = some e.obs.mtime1) :
    stepPB s e = (s, none) := by
  unfold stepPB
  simp [h]

/-- The dispatch branch: a stable, matched observation whose recorded
mtime differs dispatches the file and records the observed mtime. -/
theorem stepPB_dispatch (s : WatcherState) (e : ScanEntry) (m : Nat) (tbl : FPath)
    (hmatch : get_table_name_from_path PATTERN_TABLE_MAPPING e.path = some tbl)
    (hne : lookupTS s.fileTimestamps e.path ≠ some m)
    (hst : StableAt m e) :
    stepPB s e =
      ({ fileTimestamps := insertTS s.fileTimestamps e.path m,
         processedFiles := insertProcessed s.processedFiles e.path },
       some ⟨e.path, m, tbl⟩) := by
  obtain ⟨h1, h2, h3, h4⟩ := hst
  unfold stepPB
  rw [h1]
  simp [hne, hmatch, h1, h2, h3, h4]

/-- A step that dispatches nothing leaves `processed_files` unchanged. -/
theorem stepPB_no_dispatch_processed (s : WatcherState) (e : ScanEntry)
    (h : (stepPB s e).2 = none) :
    (stepPB s e).1.processedFiles = s.processedFiles := by
  revert h
  unfold stepPB
  split
  · intro h; rfl
  · split
    · split
      · intro h; rfl
      · intro h; rfl
    · split
      · intro h; rfl
      · split
        · intro h; rfl
        · split
          · intro h; simp at h
          · intro h; rfl

theorem dispatchCount_append (p : FPath) (m : Nat) (xs ys : List DispatchRec) :
    dispatchCount p m (xs ++ ys) = dispatchCount p m xs + dispatchCount p m ys := by
  simp [dispatchCount, List.filter_append]

theorem dispatchCount_opt_other (p : FPath) (m : Nat) (o : Option DispatchRec)
    (h : ∀ r, o = some r → r.path ≠ p) : dispatchCount p m o.toList = 0 := by
  cases o with
  | none => simp [dispatchCount]
  | some r => simp [dispatchCount, h r rfl]

/-- Once `p`'s recorded mtime is `m`, a tick whose observations of `p` all
report mtime `m` leaves the record at `m` and dispatches nothing for
`(p, m)`. -/
theorem runTickPB_already (s : WatcherState) (es : List ScanEntry) (p : FPath)
    (m : Nat) (hs : lookupTS s.fileTimestamps p = some m)
    (hall : ∀ e ∈ es, e.path = p → e.obs.mtime1 = m) :
    lookupTS (runTickPB s es).1.fileTimestamps p = some m ∧
      dispatchCount p m (runTickPB s es).2 = 0 := by
  induction es generalizing s with
  | nil => exact ⟨hs, rfl⟩
  | cons e es ih =>
    by_cases hp : e.path = p
    · have hm1 : e.obs.mtime1 = m := hall e (by simp) hp
      have hskip : stepPB s e = (s, none) :=
        stepPB_skip s e (by rw [hp, hm1]; exact hs)
      have := ih s hs (fun x hx => hall x (List.mem_cons_of_mem _ hx))
      simpa [runTickPB, hskip, dispatchCount] using this
    · have hlk := stepPB_lookup_other s e p hp
      have := ih (stepPB s e).1 (hlk.trans hs)
        (fun x hx => hall x (List.mem_cons_of_mem _ hx))
      refine ⟨by simpa [runTickPB] using this.1, ?_⟩
      have hopt : dispatchCount p m (stepPB s e).2.toList = 0 :=
        dispatchCount_opt_other p m _
          (fun r hr => by
            have := (stepPB_rec_src s e r hr).1
            exact this ▸ hp)
      simp [runTickPB, dispatchCount_append, hopt, this.2]

/-- A tick with no observation of `p` neither touches `p`'s record nor
dispatches for `p`. -/
theorem runTickPB_absent (s : WatcherState) (es : List ScanEntry) (p : FPath)
    (m : Nat) (hno : ∀ e ∈ es, e.path ≠ p) :
    lookupTS (runTickPB s es).1.fileTimestamps p = lookupTS s.fileTimestamps p ∧
      dispatchCount p m (runTickPB s es).2 = 0 := by
  induction es generalizing s with
  | nil => exact ⟨rfl, rfl⟩
  | cons e es ih =>
    have hp : e.path ≠ p := hno e (by simp)
    have hlk := stepPB_lookup_other s e p hp
    have := ih (stepPB s e).1 (fun x hx => hno x (List.mem_cons_of_mem _ hx))
    refine ⟨by simpa [runTickPB] using this.1.trans hlk, ?_⟩
    have hopt : dispatchCount p m (stepPB s e).2.toList = 0 :=
      dispatchCount_opt_other p m _
        (fun r hr => (stepPB_rec_src s e r hr).1 ▸ hp)
    simp [runTickPB, dispatchCount_append, hopt, this.2]

/-- The tick on which `p` first shows up stable at a fresh mtime `m`
dispatches `(p, m)` exactly once and records `m`. -/
theorem runTickPB_first (s : WatcherState) (es : List ScanEntry) (p : FPath)
    (m : Nat) (tbl : FPath)
    (hmatch : get_table_name_from_path PATTERN_TABLE_MAPPING p = some tbl)
    (hs : lookupTS s.fileTimestamps p ≠ some m)
    (hall : ∀ e ∈ es, e.path = p → StableAt m e)
    (hex : ∃ e ∈ es, e.path = p) :
    lookupTS (runTickPB s es).1.fileTimestamps p = some m ∧
      dispatchCount p m (runTickPB s es).2 = 1 := by
  induction es generalizing s with
  | nil => simp at hex
  | cons e es ih =>
    by_cases hp : e.path = p
    · have hst : StableAt m e := hall e (by simp) hp
      have hdp := stepPB_dispatch s e m tbl (hp ▸ hmatch)
        (by rw [hp]; exact (hst.1 ▸ hs)) hst
      have hlk2 :
          lookupTS (stepPB s e).1.fileTimestamps p = some m := by
        rw [hdp]; simpa using hp ▸ lookupTS_insertTS_self s.fileTimestamps e.path m
      have hrest := runTickPB_already (stepPB s e).1 es p m hlk2
        (fun x hx hxp => (hall x (List.mem_cons_of_mem _ hx) hxp).1)
      refine ⟨by simpa [runTickPB] using hrest.1, ?_⟩
      have hone : dispatchCount p m (stepPB s e).2.toList = 1 := by
        rw [hdp]; simp [dispatchCount, hp]
      simp [runTickPB, dispatchCount_append, hone, hrest.2]
    · have hlk := stepPB_lookup_other s e p hp
      have hex2 : ∃ x ∈ es, x.path = p := by
        obtain ⟨x, hx, hxp⟩ := hex
        rcases List.mem_cons.mp hx with rfl | hx2
        · exact absurd hxp hp
        · exact ⟨x, hx2, hxp⟩
      have := ih (stepPB s e).1 (hlk ▸ hs)
        (fun x hx => hall x (List.mem_cons_of_mem _ hx)) hex2
      refine ⟨by simpa [runTickPB] using this.1, ?_⟩
      have hopt : dispatchCount p m (stepPB s e).2.toList = 0 :=
        dispatchCount_opt_other p m _
          (fun r hr => (stepPB_rec_src s e r hr).1 ▸ hp)
      simp [runTickPB, dispatchCount_append, hopt, this.2]

/-- After `(p, m)` has been recorded, no later tick of a run whose `p`
observations all report mtime `m` dispatches `(p, m)` again. -/
theorem runPB_after (s : WatcherState) (ticks : List (List ScanEntry)) (p : FPath)
    (m : Nat) (hs : lookupTS s.fileTimestamps p = some m)
    (hall : ∀ t ∈ ticks, ∀ e ∈ t, e.path = p → e.obs.mtime1 = m) :
    dispatchCount p m (runPB s ticks).2 = 0 := by
  induction ticks generalizing s with
  | nil => rfl
  | cons t ts ih =>
    have h1 := runTickPB_already s t p m hs (hall t (by simp))
    have h2 := ih (runTickPB s t).1 h1.1
      (fun x hx => hall x (List.mem_cons_of_mem _ hx))
    simp [runPB, dispatchCount_append, h1.2, h2]

/-- C1 (amended): in the **pattern-based** watcher, for every path `p`
and mtime `m`: if `p` matches a pattern rule, `p`'s recorded mtime is not
already `m`, and every observation of `p` in the run is stable at `m`
(both stats report `m`, positive size, processing succeeds), then the run
dispatches the pair `(p, m)` exactly once; moreover (both watchers) an
observation whose mtime changes during the settle re-stat is never
dispatched.  In the **working** watcher the exactly-once guarantee holds
only for paths not already in `processed_files`: a previously processed
path observed stable at a new mtime is dispatched zero times, not once
(see the counterexample). -/
theorem stable_file_dispatched_exactly_once :
    (∀ (s : WatcherState) (ticks : List (List ScanEntry)) (p : FPath) (m : Nat)
        (tbl : FPath),
      get_table_name_from_path PATTERN_TABLE_MAPPING p = some tbl →
      lookupTS s.fileTimestamps p ≠ some m →
      (∀ t ∈ ticks, ∀ e ∈ t, e.path = p → StableAt m e) →
      (∃ t ∈ ticks, ∃ e ∈ t, e.path = p) →
      dispatchCount p m (runPB s ticks).2 = 1)
    ∧ (∀ (s : WatcherState) (e : ScanEntry),
        e.obs.mtime2 ≠ e.obs.mtime1 → (stepPB s e).2 = none)
    ∧ (∀ (s : WatcherState) (e : WEntry),
        lookupTS s.fileTimestamps e.path = none →
        e.obs.mtime2 ≠ e.obs.mtime1 → (findStepWF s e).2 = none) := by
  refine ⟨?_, ?_, ?_⟩
  · intro s ticks p m tbl hmatch hinit hall hocc
    induction ticks generalizing s with
    | nil => simp at hocc
    | cons t ts ih =>
      by_cases hp : ∃ e ∈ t, e.path = p
      · have h1 := runTickPB_first s t p m tbl hmatch hinit (hall t (by simp)) hp
        have h2 := runPB_after (runTickPB s t).1 ts p m h1.1
          (fun x hx e he hep => (hall x (List.mem_cons_of_mem _ hx) e he hep).1)
        simp [runPB, dispatchCount_append, h1.2, h2]
      · have h1 := runTickPB_absent s t p m
          (fun e he hep => hp ⟨e, he, hep⟩)
        have hocc2 : ∃ x ∈ ts, ∃ e ∈ x, e.path = p := by
          obtain ⟨x, hx, e, he, hep⟩ := hocc
          rcases List.mem_cons.mp hx with rfl | hx2
          · exact absurd ⟨e, he, hep⟩ hp
          · exact ⟨x, hx2, e, he, hep⟩
        have h2 := ih (runTickPB s t).1 (h1.1.trans_ne hinit)
          (fun x hx => hall x (List.mem_cons_of_mem _ hx)) hocc2
        simp [runPB, dispatchCount_append, h1.2, h2]
  · intro s e hm
    unfold stepPB
    split
    · rfl
    · split
      · split <;> rfl
      · simp [hm]
  · intro s e hlk hm
    unfold findStepWF
    rw [hlk]
    simp [hm]

/-- Witness for C1: a single-tick run in which `z:/tel_list/n.csv` is
observed once, stable at mtime 5 with size 9 and successful processing,
dispatches the pair exactly once. -/
theorem stable_file_dispatched_exactly_once_witness :
    dispatchCount "z:/tel_list/n.csv".toList 5
      (runPB ⟨[], []⟩
        [[⟨"z:/tel_list/n.csv".toList, ⟨5, 5, 9⟩, true⟩]]).2 = 1 :=
  stable_file_dispatched_exactly_once.1 ⟨[], []⟩
    [[⟨"z:/tel_list/n.csv".toList, ⟨5, 5, 9⟩, true⟩]]
    "z:/tel_list/n.csv".toList 5 "dim_numbers".toList
    (by decide) (by decide) (by decide) (by decide)

/-- Counterexample to C1 as stated: in the working watcher
(`find_new_files`, src/working_file_watcher.py lines 220-227), the path
`z:/customer_data/jan.csv` — which matches a pattern rule — is dispatched
for mtime 1, then observed stable at mtime 2 with positive size and a
working dispatch path, yet the two-tick run dispatches only `(p, 1)`:
the pair `(p, 2)` gets **zero** dispatches, not exactly one, because the
path is already in `processed_files`. -/
theorem working_watcher_new_mtime_zero_dispatches :
    (runWF ⟨[], []⟩
        [[⟨"z:/customer_data/jan.csv".toList, ⟨1, 1, 5⟩, 3, true⟩],
         [⟨"z:/customer_data/jan.csv".toList, ⟨2, 2, 5⟩, 3, true⟩]]).2 =
      [("z:/customer_data/jan.csv".toList, 1)] ∧
    dispatchCountWF "z:/customer_data/jan.csv".toList 2
      (runWF ⟨[], []⟩
        [[⟨"z:/customer_data/jan.csv".toList, ⟨1, 1, 5⟩, 3, true⟩],
         [⟨"z:/customer_data/jan.csv".toList, ⟨2, 2, 5⟩, 3, true⟩]]).2 = 0 := by
  constructor <;> decide

/-- C4 (amended): when `process_file` fails for a stable, matched,
fresh observation, the file is indeed not added to `processed_files`
and nothing is dispatched — but `file_timestamps` has already been
updated to the observed mtime (line 282 runs before the attempt), so
every later observation of the same `(path, mtime)` is skipped by the
unchanged-mtime check: the pair is **not** retried; a retry happens only
if the file's mtime changes again. -/
theorem failed_dispatch_not_retried (s : WatcherState) (e : ScanEntry) (tbl : FPath)
    (hmatch : get_table_name_from_path PATTERN_TABLE_MAPPING e.path = some tbl)
    (hne : lookupTS s.fileTimestamps e.path ≠ some e.obs.mtime1)
    (hm2 : e.obs.mtime2 = e.obs.mtime1)
    (hsz : e.obs.size2 ≠ 0)
    (hfail : e.ok = false) :
    (stepPB s e).2 = none ∧
    (stepPB s e).1.processedFiles = s.processedFiles ∧
    lookupTS (stepPB s e).1.fileTimestamps e.path = some e.obs.mtime1 ∧
    ∀ e2 : ScanEntry, e2.path = e.path → e2.obs.mtime1 = e.obs.mtime1 →
      stepPB (stepPB s e).1 e2 = ((stepPB s e).1, none) := by
  have hstep : stepPB s e =
      ({ s with fileTimestamps := insertTS s.fileTimestamps e.path e.obs.mtime1 },
       none) := by
    unfold stepPB
    simp [hne, hmatch, hm2, hsz, hfail]
  refine ⟨by rw [hstep], by rw [hstep], ?_, ?_⟩
  · rw [hstep]; simpa using lookupTS_insertTS_self s.fileTimestamps e.path e.obs.mtime1
  · intro e2 hp2 hm2eq
    apply stepPB_skip
    rw [hp2, hm2eq, hstep]
    simpa using lookupTS_insertTS_self s.fileTimestamps e.path e.obs.mtime1

/-- Witness for C4 at a concrete failed dispatch: after the failure, a
second observation of `z:/reports/rep.csv` at the same mtime (this time
with a working dispatch path) is skipped without any state change. -/
theorem failed_dispatch_not_retried_witness :
    stepPB (stepPB ⟨[], []⟩ ⟨"z:/reports/rep.csv".toList, ⟨4, 4, 6⟩, false⟩).1
        ⟨"z:/reports/rep.csv".toList, ⟨4, 4, 6⟩, true⟩ =
      ((stepPB ⟨[], []⟩ ⟨"z:/reports/rep.csv".toList, ⟨4, 4, 6⟩, false⟩).1, none) :=
  (failed_dispatch_not_retried ⟨[], []⟩
      ⟨"z:/reports/rep.csv".toList, ⟨4, 4, 6⟩, false⟩ "staging_reports".toList
      (by decide) (by decide) rfl (by decide) rfl).2.2.2
    ⟨"z:/reports/rep.csv".toList, ⟨4, 4, 6⟩, true⟩ rfl rfl

/-- Counterexample to C4 as stated: `z:/sales_data/may.csv` is observed
stable at mtime 7 but its dispatch fails (tick 1); on tick 2 the same
`(path, mtime)` is observed again with a working dispatch path.  The
claim says the later tick retries the dispatch; in fact the two-tick run
dispatches nothing at all and the file is silently lost (its timestamp
is recorded, the processed set stays empty, the dispatch list is empty). -/
theorem failed_dispatch_silently_lost :
    runPB ⟨[], []⟩
        [[⟨"z:/sales_data/may.csv".toList, ⟨7, 7, 9⟩, false⟩],
         [⟨"z:/sales_data/may.csv".toList, ⟨7, 7, 9⟩, true⟩]] =
      (⟨[("z:/sales_data/may.csv".toList, 7)], []⟩, []) := by
  decide

/-- C5 (amended): a known path observed with a changed mtime re-arms
dispatch in the **pattern-based** watcher regardless of prior state — no
assumption on `processed_files` is made, so a previously
dispatched/processed path is re-dispatched once stable.  In the
**working** watcher the modified-file branch re-arms only paths **not**
in `processed_files` (src/working_file_watcher.py line 225): under that
extra assumption the file becomes a candidate again. -/
theorem modified_file_rearms_dispatch :
    (∀ (s : WatcherState) (e : ScanEntry) (m1 : Nat) (tbl : FPath),
      lookupTS s.fileTimestamps e.path = some m1 →
      e.obs.mtime1 ≠ m1 →
      get_table_name_from_path PATTERN_TABLE_MAPPING e.path = some tbl →
      e.obs.mtime2 = e.obs.mtime1 →
      e.obs.size2 ≠ 0 →
      e.ok = true →
      (stepPB s e).2 = some ⟨e.path, e.obs.mtime1, tbl⟩)
    ∧ (∀ (s : WatcherState) (e : WEntry) (m1 : Nat),
        lookupTS s.fileTimestamps e.path = some m1 →
        e.obs.mtime1 ≠ m1 →
        e.path ∉ s.processedFiles →
        (findStepWF s e).2 = some e) := by
  constructor
  · intro s e m1 tbl hlk hnew hmatch hm2 hsz hok
    have hne : lookupTS s.fileTimestamps e.path ≠ some e.obs.mtime1 := by
      rw [hlk]
      exact fun hcontra => hnew (Option.some.inj hcontra).symm
    rw [stepPB_dispatch s e e.obs.mtime1 tbl hmatch hne ⟨rfl, hm2, hsz, hok⟩]
  · intro s e m1 hlk hnew hnp
    have hne2 : m1 ≠ e.obs.mtime1 := Ne.symm hnew
    unfold findStepWF
    rw [hlk]
    simp [hne2, hnp]

/-- Witness for C5: `z:/inventory/stock.csv`, already dispatched at
mtime 3 and present in `processed_files`, is observed stable at mtime 9
and is dispatched again. -/
theorem modified_file_rearms_dispatch_witness :
    (stepPB ⟨[("z:/inventory/stock.csv".toList, 3)],
             ["z:/inventory/stock.csv".toList]⟩
        ⟨"z:/inventory/stock.csv".toList, ⟨9, 9, 2⟩, true⟩).2 =
      some ⟨"z:/inventory/stock.csv".toList, 9, "dim_inventory".toList⟩ :=
  modified_file_rearms_dispatch.1
    ⟨[("z:/inventory/stock.csv".toList, 3)], ["z:/inventory/stock.csv".toList]⟩
    ⟨"z:/inventory/stock.csv".toList, ⟨9, 9, 2⟩, true⟩ 3 "dim_inventory".toList
    (by decide) (by decide) (by decide) rfl (by decide) rfl

/-- Counterexample to C5 as stated: in the working watcher a path that
was already processed is **not** re-armed by a new mtime — the modified
observation of `z:/customer_data/feb.csv` (recorded at mtime 3, now
stable at mtime 9, positive size, readable, working dispatch path)
yields no candidate and the whole cycle dispatches nothing, contradicting
"re-arms dispatch ... regardless of whether the path was previously
dispatched/processed or completed". -/
theorem working_watcher_processed_not_rearmed :
    (findStepWF ⟨[("z:/customer_data/feb.csv".toList, 3)],
                 ["z:/customer_data/feb.csv".toList]⟩
        ⟨"z:/customer_data/feb.csv".toList, ⟨9, 9, 2⟩, 3, true⟩).2 = none ∧
    (runOnceWF ⟨[("z:/customer_data/feb.csv".toList, 3)],
                ["z:/customer_data/feb.csv".toList]⟩
        [⟨"z:/customer_data/feb.csv".toList, ⟨9, 9, 2⟩, 3, true⟩]).2 = [] := by
  constructor <;> decide

/-- C6: a file whose observed size is 0 is never dispatched, on either
watcher and on both scanner code paths.  (a) The pattern-based watcher
drops any observation whose re-stat size is 0.  (b) The working
watcher's new-file path requires positive size.  (c) The working
watcher's modified-file path has no size guard, but a size-0 file yields
zero dataframe rows, so `process_file` returns `False` before
`send_task` (`df is None`, src/working_file_watcher.py lines 130-132,
152-155) and the state is unchanged.  (d) Once the file gains content
(a new mtime, stable, positive size), the pattern-based watcher
dispatches it. -/
theorem empty_file_never_dispatched :
    (∀ (s : WatcherState) (e : ScanEntry),
      e.obs.size2 = 0 → (stepPB s e).2 = none)
    ∧ (∀ (s : WatcherState) (e : WEntry),
        lookupTS s.fileTimestamps e.path = none →
        e.obs.size2 = 0 → (findStepWF s e).2 = none)
    ∧ (∀ (s : WatcherState) (e : WEntry),
        e.rows = 0 → processFileWF s e = (s, none))
    ∧ (∀ (s : WatcherState) (e : ScanEntry) (tbl : FPath),
        lookupTS s.fileTimestamps e.path ≠ some e.obs.mtime1 →
        get_table_name_from_path PATTERN_TABLE_MAPPING e.path = some tbl →
        e.obs.mtime2 = e.obs.mtime1 → e.obs.size2 ≠ 0 → e.ok = true →
        (stepPB s e).2 = some ⟨e.path, e.obs.mtime1, tbl⟩) := by
  refine ⟨?_, ?_, ?_, ?_⟩
  · intro s e hsz
    unfold stepPB
    split
    · rfl
    · split
      · split <;> rfl
      · split
        · rfl
        · simp [hsz]
  · intro s e hlk hsz
    unfold findStepWF
    rw [hlk]
    simp [hsz]
  · intro s e hr
    unfold processFileWF
    simp [hr]
  · intro s e tbl hne hmatch hm2 hsz hok
    rw [stepPB_dispatch s e e.obs.mtime1 tbl hmatch hne ⟨rfl, hm2, hsz, hok⟩]

/-- Witness for C6: a size-0 observation of `z:/reports/q1.xlsx` is not
dispatched by the pattern-based scanner step. -/
theorem empty_file_never_dispatched_witness :
    (stepPB ⟨[], []⟩ ⟨"z:/reports/q1.xlsx".toList, ⟨2, 2, 0⟩, true⟩).2 = none :=
  empty_file_never_dispatched.1 ⟨[], []⟩
    ⟨"z:/reports/q1.xlsx".toList, ⟨2, 2, 0⟩, true⟩ rfl

/-- C2 (code bug): the raw-envelope dispatch path never pushes any
envelope.  The `body` built at line 187 of src/file_watcher_service.py
is a `bytes` object, so `json.dumps(celery_message)` at line 210 raises
`TypeError: Object of type bytes is not JSON serializable` for **every**
filename, filepath and timestamp; the `except` at line 216 swallows it
after logging an error event, and nothing reaches the `celery` list.
The claim (and the spec's round-trip property) is right about the
envelope content the code assembles — decoding the intended message
recovers the task name, args and kwargs unchanged, and the
`[args, kwargs, extras]` body shape, `headers.id`, content type and
encoding are all present — but that message is never produced on the
queue. -/
theorem raw_envelope_never_pushed (filename filepath : String) (t : Nat) :
    trigger_etl_task_fixed_push filename filepath t =
      .error "TypeError: Object of type bytes is not JSON serializable"
    ∧ decodeEnvelope (trigger_etl_task_fixed_message filename filepath t) =
      some (fixedTaskName,
        .pyList [.pyStr filename],
        .pyDict [("auto_triggered", .pyBool true), ("filepath", .pyStr filepath)])
    ∧ (trigger_etl_task_fixed_message filename filepath t).body =
        .pyList [.pyList [.pyStr filename],
          .pyDict [("auto_triggered", .pyBool true), ("filepath", .pyStr filepath)],
          .pyDict []]
    ∧ dictGet (trigger_etl_task_fixed_message filename filepath t).headers "id" =
        some (.pyStr (filename ++ "_" ++ toString t))
    ∧ (trigger_etl_task_fixed_message filename filepath t).contentType =
        "application/json"
    ∧ (trigger_etl_task_fixed_message filename filepath t).contentEncoding =
        "utf-8" := by
  refine ⟨rfl, ?_, rfl, ?_, rfl, rfl⟩
  · rfl
  · rfl

/-- C8 (amended): the completion endpoint only logs and acknowledges.
For every state and every callback payload, the handler leaves
`processing_queue`, `processed_files` and `file_timestamps` unchanged,
appends exactly one `completed_{status}` line to the events log, and
returns the acknowledgement `{message, filename, status}`.  It performs
no matching against dispatch records and no state transition to any
Completed/Failed status; a callback for an unknown file is treated
identically (in particular it never errors). -/
theorem processing_complete_only_logs (s : FPState) (data : List (String × PyVal)) :
    (processing_complete s data).1.processingQueue = s.processingQueue
    ∧ (processing_complete s data).1.processedFiles = s.processedFiles
    ∧ (processing_complete s data).1.fileTimestamps = s.fileTimestamps
    ∧ (processing_complete s data).1.events = s.events ++
        [⟨(dictGet data "filename").getD .pyNone,
          "completed_" ++ pyFormat ((dictGet data "status").getD .pyNone),
          "Worker: " ++ pyFormat ((dictGet data "worker_id").getD .pyNone) ++
            ", Details: " ++ pyFormat ((dictGet data "details").getD .pyNone)⟩]
    ∧ (processing_complete s data).2 =
        ("Processing completion recorded",
         (dictGet data "filename").getD .pyNone,
         (dictGet data "status").getD .pyNone) :=
  ⟨rfl, rfl, rfl, rfl, rfl⟩

/-- Counterexample to C8 as stated: a well-formed success callback for
`jan.csv` — a file that is tracked (queued at fire time 99, timestamp 7)
— does **not** update the tracked state of that file: the queue, the
processed set and the timestamps map come out identical to the input,
so no `Completed` transition exists; the handler only appends the
`completed_success` log line. -/
theorem processing_complete_no_state_update :
    (processing_complete
        ⟨[("z:/data/jan.csv", 99)], [], [("z:/data/jan.csv", 7)], []⟩
        [("filename", .pyStr "jan.csv"), ("status", .pyStr "success"),
         ("details", .pyStr "ok"), ("worker_id", .pyStr "w1")]).1.processingQueue =
      [("z:/data/jan.csv", 99)]
    ∧ (processing_complete
        ⟨[("z:/data/jan.csv", 99)], [], [("z:/data/jan.csv", 7)], []⟩
        [("filename", .pyStr "jan.csv"), ("status", .pyStr "success"),
         ("details", .pyStr "ok"), ("worker_id", .pyStr "w1")]).1.processedFiles = []
    ∧ (processing_complete
        ⟨[("z:/data/jan.csv", 99)], [], [("z:/data/jan.csv", 7)], []⟩
        [("filename", .pyStr "jan.csv"), ("status", .pyStr "success"),
         ("details", .pyStr "ok"), ("worker_id", .pyStr "w1")]).1.fileTimestamps =
      [("z:/data/jan.csv", 7)]
    ∧ (processing_complete
        ⟨[("z:/data/jan.csv", 99)], [], [("z:/data/jan.csv", 7)], []⟩
        [("filename", .pyStr "jan.csv"), ("status", .pyStr "success"),
         ("details", .pyStr "ok"), ("worker_id", .pyStr "w1")]).1.events.map
          LogEvent.status = ["completed_success"] :=
  ⟨rfl, rfl, rfl, rfl⟩

theorem mem_insertProcessedStr (l : List String) (q p : String) :
    p ∈ insertProcessedStr l q ↔ p ∈ l ∨ p = q := by
  unfold insertProcessedStr
  by_cases h : q ∈ l
  · rw [if_pos h]
    constructor
    · exact Or.inl
    · rintro (hp | h2)
      · exact hp
      · exact h2 ▸ h
  · rw [if_neg h]
    simp [or_comm, eq_comm]

theorem mem_foldl_dispatch (due : List String) (init : List String)
    (ok : String → Bool) (p : String) :
    p ∈ due.foldl (fun acc q => if ok q then insertProcessedStr acc q else acc) init ↔
      p ∈ init ∨ (p ∈ due ∧ ok p = true) := by
  induction due generalizing init with
  | nil => simp
  | cons q due ih =>
    rw [List.foldl_cons, ih]
    by_cases hq : ok q = true
    · rw [if_pos hq, mem_insertProcessedStr]
      constructor
      · rintro ((h | h2) | ⟨hm, hok⟩)
        · exact Or.inl h
        · exact Or.inr ⟨by simp [h2], by rw [h2]; exact hq⟩
        · exact Or.inr ⟨List.mem_cons_of_mem _ hm, hok⟩
      · rintro (h | ⟨hm, hok⟩)
        · exact Or.inl (Or.inl h)
        · rcases List.mem_cons.mp hm with h2 | hm2
          · exact Or.inl (Or.inr h2)
          · exact Or.inr ⟨hm2, hok⟩
    · rw [if_neg hq]
      constructor
      · rintro (h | ⟨hm, hok⟩)
        · exact Or.inl h
        · exact Or.inr ⟨List.mem_cons_of_mem _ hm, hok⟩
      · rintro (h | ⟨hm, hok⟩)
        · exact Or.inl h
        · rcases List.mem_cons.mp hm with h2 | hm2
          · rw [h2] at hok; exact absurd hok hq
          · exact Or.inr ⟨hm2, hok⟩

theorem keys_nodup_unique_val (l : List (String × Nat)) (a : String) (b b2 : Nat)
    (hn : (l.map Prod.fst).Nodup) (h1 : (a, b) ∈ l) (h2 : (a, b2) ∈ l) :
    b = b2 := by
  induction l with
  | nil => simp at h1
  | cons kv rest ih =>
    rcases List.mem_cons.mp h1 with rfl | h1t
    · rcases List.mem_cons.mp h2 with h2h | h2t
      · exact (Prod.mk.injEq .. ▸ h2h.symm).2
      · exact absurd (List.mem_map_of_mem Prod.fst h2t)
          (by simpa using (List.nodup_cons.mp hn).1)
    · rcases List.mem_cons.mp h2 with rfl | h2t
      · exact absurd (List.mem_map_of_mem Prod.fst h1t)
          (by simpa using (List.nodup_cons.mp hn).1)
      · exact ih ((List.nodup_cons.mp hn).2) h1t h2t

/-- C10: in `process_pending_files`, every due path is removed from the
queue during the locked sweep (before any dispatch is attempted — the
sweep completes and releases the lock before the attempt loop starts,
which the model reflects by computing the new queue independently of
`ok`), each due path is attempted exactly once, and when the dispatch
attempt raises, the path ends up neither in the queue nor in
`processed_files` (it was not there before): one scheduling yields at
most one dispatch attempt and a failed attempt leaves the file in
neither structure. -/
theorem process_pending_files_spec (now : Nat) (s : FPState) (ok : String → Bool)
    (p : String) (hnodup : (s.processingQueue.map Prod.fst).Nodup)
    (hdue : p ∈ (process_pending_files now s ok).2) :
    List.count p (process_pending_files now s ok).2 = 1
    ∧ p ∉ (process_pending_files now s ok).1.processingQueue.map Prod.fst
    ∧ (ok p = false → p ∉ s.processedFiles →
        p ∉ (process_pending_files now s ok).1.processedFiles) := by
  have hdueNodup :
      ((s.processingQueue.filter (fun kv => kv.2 ≤ now)).map Prod.fst).Nodup :=
    hnodup.sublist ((List.filter_sublist s.processingQueue).map Prod.fst)
  refine ⟨List.count_eq_one_of_mem hdueNodup hdue, ?_, ?_⟩
  · intro hmem
    obtain ⟨⟨pk, tk⟩, hkv, hpk⟩ := List.mem_map.mp hmem
    have hkv2 := List.mem_filter.mp hkv
    obtain ⟨⟨pd, td⟩, hdv, hpd⟩ := List.mem_map.mp hdue
    have hdv2 := List.mem_filter.mp hdv
    have : tk = td := by
      apply keys_nodup_unique_val s.processingQueue p tk td hnodup
      · exact hpk ▸ hkv2.1
      · exact hpd ▸ hdv2.1
    rw [this] at hkv2
    have hle : td ≤ now := by simpa using hdv2.2
    have hnle : ¬ td ≤ now := by simpa using hkv2.2
    exact hnle hle
  · intro hfail hnotin hmem
    rcases (mem_foldl_dispatch _ _ ok p).mp hmem with h | ⟨-, hok⟩
    · exact hnotin h
    · rw [hok] at hfail; cases hfail

/-- Witness for C10: at time 10, with `a.csv` due (scheduled at 5) and
`b.csv` not yet due (scheduled at 20), and a trigger call that raises,
`a.csv` is attempted exactly once and is afterwards in neither the queue
nor the processed set. -/
theorem process_pending_files_spec_witness :
    List.count "a.csv"
        (process_pending_files 10 ⟨[("a.csv", 5), ("b.csv", 20)], [], [], []⟩
          (fun _ => false)).2 = 1
    ∧ "a.csv" ∉ (process_pending_files 10
          ⟨[("a.csv", 5), ("b.csv", 20)], [], [], []⟩
          (fun _ => false)).1.processingQueue.map Prod.fst
    ∧ ((fun (_ : String) => false) "a.csv" = false → "a.csv" ∉ ([] : List String) →
        "a.csv" ∉ (process_pending_files 10
          ⟨[("a.csv", 5), ("b.csv", 20)], [], [], []⟩
          (fun _ => false)).1.processedFiles) :=
  process_pending_files_spec 10 ⟨[("a.csv", 5), ("b.csv", 20)], [], [], []⟩
    (fun _ => false) "a.csv" (by decide) (by decide)

/-- Counterexample to C9 as stated: the scanner poll thread's
`_check_file` writes `file_timestamps` with the state-tracker lock not
held, and the processor thread's `process_pending_files` adds to
`processed_files` after releasing the lock — so not every mutation of
the shared file-state structures happens under the single lock. -/
theorem shared_state_written_outside_lock :
    unlockedWrites 0 check_file_new_ops = [SharedMap.fileTimestamps]
    ∧ unlockedWrites 0 check_file_modified_ops = [SharedMap.fileTimestamps]
    ∧ unlockedWrites 0 process_pending_files_ops = [SharedMap.processedFiles] := by
  refine ⟨rfl, rfl, rfl⟩

/-- C9 (amended): only the `processing_queue` mutations are serialized by
the `FileProcessor` lock — every `processing_queue` write in every code
path happens at positive lock depth; the `file_timestamps` writes of the
poll thread and the `processed_files.add` of the processor thread happen
with the lock free. -/
theorem only_queue_mutations_locked :
    SharedMap.processingQueue ∉ unlockedWrites 0 schedule_file_processing_ops
    ∧ SharedMap.processingQueue ∉ unlockedWrites 0 process_pending_files_ops
    ∧ SharedMap.processingQueue ∉ unlockedWrites 0 check_file_new_ops
    ∧ SharedMap.processingQueue ∉ unlockedWrites 0 check_file_modified_ops
    ∧ SharedMap.fileTimestamps ∈ unlockedWrites 0 check_file_new_ops
    ∧ SharedMap.fileTimestamps ∈ unlockedWrites 0 check_file_modified_ops
    ∧ SharedMap.processedFiles ∈ unlockedWrites 0 process_pending_files_ops := by
  refine ⟨by decide, by decide, by decide, by decide, by decide, by decide, by decide⟩

theorem isEmpty_append_list (a b : List String) :
    (a ++ b).isEmpty = (a.isEmpty && b.isEmpty) := by
  cases a <;> simp [List.isEmpty]

theorem isEmpty_patternErrors (l : List (String × PyVal)) :
    (patternErrors l).isEmpty = !l.any badMappingB := by
  induction l with
  | nil => rfl
  | cons pc rest ih =>
    by_cases h : badMappingB pc = true
    · simp [patternErrors, h]
    · rw [patternErrors, if_neg h, List.nil_append, ih]
      simp [Bool.not_eq_true] at h
      simp [h]

theorem exceptIsOk_get_pattern_mappings_list (l : List (String × PyVal)) :
    exceptIsOk (get_pattern_mappings_list l) = !l.any badMappingB := by
  induction l with
  | nil => rfl
  | cons pc rest ih =>
    cases hpc : pc.2 with
    | pyDict kvs =>
      cases ht : dictGet kvs "table" with
      | none =>
        simp [get_pattern_mappings_list, hpc, ht, exceptIsOk, badMappingB,
          List.any_cons]
      | some t =>
        cases hrec : get_pattern_mappings_list rest with
        | ok ms =>
          rw [hrec] at ih
          simp only [exceptIsOk] at ih
          simp [get_pattern_mappings_list, hpc, ht, hrec, exceptIsOk,
            badMappingB, List.any_cons, ← ih]
        | error e =>
          rw [hrec] at ih
          simp only [exceptIsOk] at ih
          simp [get_pattern_mappings_list, hpc, ht, hrec, exceptIsOk,
            badMappingB, List.any_cons, ← ih]
    | pyStr v =>
      simp [get_pattern_mappings_list, hpc, exceptIsOk, badMappingB, List.any_cons]
    | pyInt v =>
      simp [get_pattern_mappings_list, hpc, exceptIsOk, badMappingB, List.any_cons]
    | pyBool v =>
      simp [get_pattern_mappings_list, hpc, exceptIsOk, badMappingB, List.any_cons]
    | pyNone =>
      simp [get_pattern_mappings_list, hpc, exceptIsOk, badMappingB, List.any_cons]
    | pyList v =>
      simp [get_pattern_mappings_list, hpc, exceptIsOk, badMappingB, List.any_cons]

/-- C7 (amended): `validate_config` does detect every malformation class
the claim names — it returns `False` exactly when a required section is
missing, a pattern mapping is a non-dict or lacks `table`, or a present
`poll_interval` is not an integer.  But validation is never invoked at
startup: startup (`_setup_from_config`) fails — leading to the non-zero
exit — **exactly** when some pattern-mapping entry is a non-dict or
lacks `table`; a missing required section or a non-integer
`poll_interval` does not stop the process. -/
theorem config_validation_vs_startup (c : RawConfig) :
    (validate_config c = false ↔ configMalformedB c = true)
    ∧ (exceptIsOk (setup_from_config c) = false ↔
        (c.patternMappings.getD []).any badMappingB = true) := by
  constructor
  · rw [validate_config, config_validation_errors, configMalformedB,
      isEmpty_append_list, isEmpty_append_list, isEmpty_append_list,
      isEmpty_patternErrors]
    rcases c with ⟨ws, pm⟩
    cases ws with
    | none =>
      simp
    | some w =>
      cases hd : dictGet w "poll_interval" with
      | none => cases pm <;> simp [hd]
      | some v => cases pm <;> cases hv : pyIsInstanceInt v <;> simp [hd, hv]
  · rw [setup_from_config, get_pattern_mappings]
    cases hrec : get_pattern_mappings_list (c.patternMappings.getD []) with
    | ok ms =>
      have h2 := exceptIsOk_get_pattern_mappings_list (c.patternMappings.getD [])
      rw [hrec] at h2
      cases hany : (c.patternMappings.getD []).any badMappingB <;>
        rw [hany] at h2 <;> simp [exceptIsOk] at h2 ⊢
    | error e =>
      have h2 := exceptIsOk_get_pattern_mappings_list (c.patternMappings.getD [])
      rw [hrec] at h2
      cases hany : (c.patternMappings.getD []).any badMappingB <;>
        rw [hany] at h2 <;> simp [exceptIsOk] at h2 ⊢

/-- Counterexample to C7 as stated: two malformed configurations that
`validate_config` rejects but that do **not** prevent startup.  The
first has a non-integer `poll_interval` (`"ten"`); the second lacks the
required `pattern_mappings` section entirely.  In both cases
`_setup_from_config` succeeds (no exception, hence no non-zero exit),
because startup never runs the validation. -/
theorem malformed_config_starts_anyway :
    validate_config
        ⟨some [("poll_interval", .pyStr "ten")],
         some [("tel_list", .pyDict [("table", .pyStr "dim_numbers")])]⟩ = false
    ∧ exceptIsOk (setup_from_config
        ⟨some [("poll_interval", .pyStr "ten")],
         some [("tel_list", .pyDict [("table", .pyStr "dim_numbers")])]⟩) = true
    ∧ validate_config ⟨some [], none⟩ = false
    ∧ exceptIsOk (setup_from_config ⟨some [], none⟩) = true := by
  refine ⟨rfl, rfl, rfl, rfl⟩
